import Mathlib

/-!
Verification of the bitparse expression lexer and evaluator
(src/parse.rs) against its natural-language specification.

The Rust source is shallowly embedded: u64 values become Nat with
explicit bounds checks against 2 ^ 64 where the machine width matters,
Result values become an explicit result type, and a Rust runtime panic
(an abort that is not a returned value) is modelled by a dedicated
result constructor. Rust Vec stacks (push and pop at the end) are
modelled by Lean lists whose HEAD is the TOP of the stack, so
Vec::push is cons, Vec::pop takes the head, and Vec::first (the
oldest, bottommost element, which queue_operator peeks at) is the
last element of the list.
-/

namespace Bitparse

/-- Token type, from enum Token in src/parse.rs lines 3 to 12. -/
inductive Token where
  | Unknown (c : Char)
  | OpenParen
  | CloseParen
  | UnaryOperator (s : String)
  | Operator (s : String)
  | Number (s : String)
  | Identifier (s : String)
  deriving DecidableEq

/-- Result of running the evaluator: an ordinary return value, an
ordinary error return (the Err branch of the Rust Result), or a Rust
runtime panic (division rest by zero, arithmetic overflow in a debug
build), which aborts the process and is distinct from both. -/
inductive PRes (A : Type) where
  | ok (v : A)
  | err (msg : String)
  | crash (msg : String)
  deriving DecidableEq

/-- The character class 0-9, used by the lexer number scan. -/
def is_ascii_digit (c : Char) : Bool :=
  ('0' ≤ c && c ≤ '9')

/-- The character class 0-9, A-F, a-f greedily consumed into a Number
token (src/parse.rs lines 69 to 81): hex digits are accepted
regardless of the declared base. -/
def is_number_char (c : Char) : Bool :=
  is_ascii_digit c || ('A' ≤ c && c ≤ 'F') || ('a' ≤ c && c ≤ 'f')

/-- Alphabetic A-Z a-z, the identifier character class
(src/parse.rs lines 85 to 99). -/
def is_alpha (c : Char) : Bool :=
  ('A' ≤ c && c ≤ 'Z') || ('a' ≤ c && c ≤ 'z')

/-- Greedy consumption of number characters onto the accumulated
literal text: the inner while loop of the number arm,
src/parse.rs lines 69 to 81. Returns the token text and the
unconsumed remainder of the input. -/
def scan_number : List Char → String → String × List Char
  | [], value => (value, [])
  | c :: rest, value =>
    if is_number_char c then scan_number rest (value.push c) else (value, c :: rest)

/-- Greedy consumption of alphabetic characters onto an identifier:
the inner while loop of the identifier arm, src/parse.rs
lines 88 to 99. -/
def scan_identifier : List Char → String → String × List Char
  | [], value => (value, [])
  | c :: rest, value =>
    if is_alpha c then scan_identifier rest (value.push c) else (value, c :: rest)

/-- One pass of the lexer loop of src/parse.rs lines 18 to 111, by
structural recursion on a fuel argument. Each iteration consumes at
least one character, so fuel equal to the length of the input (see
lexList) always suffices; the fuel zero branch is never reached from
lexList. The if chain tests the match arms in source order, which
matters because x, o, b are skipped by their own arm before the
alphabetic arm can see them. -/
def lexGo : Nat → List Char → List Token
  | 0, _ => []
  | _ + 1, [] => []
  | fuel + 1, c :: rest =>
    if c = '(' then Token.OpenParen :: lexGo fuel rest
    else if c = ')' then Token.CloseParen :: lexGo fuel rest
    else if c = '<' then
      -- a lone < emits no token and raises no error (lines 28 to 34)
      match rest with
      | c2 :: rest2 => if c2 = '<' then Token.Operator "<<" :: lexGo fuel rest2 else lexGo fuel rest
      | [] => lexGo fuel rest
    else if c = '>' then
      -- a lone > emits no token and raises no error (lines 35 to 41)
      match rest with
      | c2 :: rest2 => if c2 = '>' then Token.Operator ">>" :: lexGo fuel rest2 else lexGo fuel rest
      | [] => lexGo fuel rest
    else if c = '~' || c = '!' then Token.UnaryOperator c.toString :: lexGo fuel rest
    else if c = '^' || c = '*' || c = '/' || c = '%' || c = '+' || c = '-' || c = '|' || c = '&' then
      Token.Operator c.toString :: lexGo fuel rest
    else if c = 'x' || c = 'o' || c = 'b' then
      -- prefix letters outside a number are silently skipped (lines 50 to 52)
      lexGo fuel rest
    else if is_ascii_digit c then
      -- number arm, lines 53 to 84: on a leading zero peek for a base
      -- prefix letter, then greedily consume number characters
      let s1 :=
        if c = '0' then
          match rest with
          | cc :: rest2 =>
            if cc = 'b' || cc = 'o' || cc = 'x' then (c.toString.push cc, rest2)
            else (c.toString, rest)
          | [] => (c.toString, rest)
        else (c.toString, rest)
      let s2 := scan_number s1.2 s1.1
      Token.Number s2.1 :: lexGo fuel s2.2
    else if is_alpha c then
      let s := scan_identifier rest c.toString
      Token.Identifier s.1 :: lexGo fuel s.2
    else if c = ' ' || c = '\t' || c = '\n' || c = '\r' then lexGo fuel rest
    else Token.Unknown c :: lexGo fuel rest

/-- The token sequence produced by the lexer loop for a character
list, with exactly enough fuel. -/
def lexList (l : List Char) : List Token :=
  lexGo l.length l

/-- fn lex of src/parse.rs lines 14 to 113. Its Rust type is
Result of Vec Token and String, but every path returns Ok: the error
case is dead. -/
def lex (input : String) : Except String (List Token) :=
  Except.ok (lexList input.data)

/-- Strip one occurrence of a pattern from the front of a character
list: some remainder on a match, none otherwise. -/
def dropPrefixChars : List Char → List Char → Option (List Char)
  | [], l => some l
  | _ :: _, [] => none
  | p :: ps, c :: cs => if c = p then dropPrefixChars ps cs else none

/-- Model of str::starts_with for string patterns. -/
def starts_with (s pat : String) : Bool :=
  (dropPrefixChars pat.data s.data).isSome

/-- Loop of str::trim_start_matches: repeatedly strip the pattern
from the front while it matches. Each successful strip of a nonempty
pattern shortens the text, so fuel equal to the length of the text
suffices (see trim_start_matches). -/
def trimGo (fuel : Nat) (s pat : List Char) : List Char :=
  match fuel with
  | 0 => s
  | f + 1 =>
    match pat, dropPrefixChars pat s with
    | [], _ => s
    | _ :: _, none => s
    | p :: ps, some s2 => trimGo f s2 (p :: ps)

/-- Model of str::trim_start_matches with a string pattern, as used
by parse_number in src/parse.rs lines 188 to 204. -/
def trim_start_matches (s pat : String) : String :=
  (trimGo s.data.length s.data pat.data).asString

/-- Value of a single digit character as Rust char::to_digit sees it:
0-9, then letters a-z and A-Z counting from ten. -/
def char_digit (c : Char) : Option Nat :=
  if '0' ≤ c && c ≤ '9' then some (c.toNat - '0'.toNat)
  else if 'a' ≤ c && c ≤ 'z' then some (c.toNat - 'a'.toNat + 10)
  else if 'A' ≤ c && c ≤ 'Z' then some (c.toNat - 'A'.toNat + 10)
  else none

/-- Machine width of the evaluator: one past the largest u64. -/
def u64_size : Nat := 2 ^ 64

/-- Largest u64 value. -/
def u64_max : Nat := 2 ^ 64 - 1

/-- Digit-accumulation loop of u64::from_str_radix: fails on a
character that is not a digit of the base. -/
def radix_digits (radix : Nat) : List Char → Nat → Option Nat
  | [], acc => some acc
  | c :: rest, acc =>
    match char_digit c with
    | some d => if d < radix then radix_digits radix rest (acc * radix + d) else none
    | none => none

/-- Model of u64::from_str_radix: an optional leading plus sign, then
at least one digit of the base, failing on overflow past 64 bits.
Rust checks overflow at each accumulation step; for a radix of at
least two that is equivalent to checking the final value, since the
accumulator never decreases. -/
def from_str_radix (s : String) (radix : Nat) : Option Nat :=
  let cs :=
    match s.data with
    | c :: rest => if c = '+' then rest else c :: rest
    | [] => []
  if cs.isEmpty then none
  else
    match radix_digits radix cs 0 with
    | some v => if v < u64_size then some v else none
    | none => none

/-- fn parse_number of src/parse.rs lines 188 to 204. Note the source
slip on the octal branch: after checking for the prefix 0o it trims
the pattern 00 (not 0o), so the letter o stays in the text handed to
from_str_radix and octal literals never parse. -/
def parse_number (input : String) : Option Nat :=
  if starts_with input "0x" then from_str_radix (trim_start_matches input "0x") 16
  else if starts_with input "0o" then from_str_radix (trim_start_matches input "00") 8
  else if starts_with input "0b" then from_str_radix (trim_start_matches input "0b") 2
  else from_str_radix input 10

/-- Operator stack frame, struct Operator of src/parse.rs
lines 115 to 119: a token paired with an i32 precedence. -/
structure Operator where
  token : Token
  precedence : Int
  deriving DecidableEq

/-- Debug formatting of a token as derive Debug prints it inside the
error messages of src/parse.rs (only the variant name matters for the
claims; payloads are printed in Rust debug style). -/
def debugFmt : Token → String
  | Token.Unknown c => "Unknown(" ++ (Char.ofNat 39).toString ++ c.toString ++ (Char.ofNat 39).toString ++ ")"
  | Token.OpenParen => "OpenParen"
  | Token.CloseParen => "CloseParen"
  | Token.UnaryOperator s => "UnaryOperator(" ++ (Char.ofNat 34).toString ++ s ++ (Char.ofNat 34).toString ++ ")"
  | Token.Operator s => "Operator(" ++ (Char.ofNat 34).toString ++ s ++ (Char.ofNat 34).toString ++ ")"
  | Token.Number s => "Number(" ++ (Char.ofNat 34).toString ++ s ++ (Char.ofNat 34).toString ++ ")"
  | Token.Identifier s => "Identifier(" ++ (Char.ofNat 34).toString ++ s ++ (Char.ofNat 34).toString ++ ")"

/-- The divide by zero message of src/parse.rs line 222, with the two
operands rendered in decimal between single quotes. -/
def divide_by_zero_msg (a b : Nat) : String :=
  "Divide by zero " ++ (Char.ofNat 39).toString ++ Nat.repr a ++ " / " ++ Nat.repr b
    ++ (Char.ofNat 39).toString

/-- Rust runtime panic message for an unguarded remainder by zero. -/
def rem_zero_msg : String := "attempt to calculate the remainder with a divisor of zero"

/-- Rust runtime panic message for multiplication overflow. -/
def mul_overflow_msg : String := "attempt to multiply with overflow"

/-- Rust runtime panic message for addition overflow. -/
def add_overflow_msg : String := "attempt to add with overflow"

/-- Rust runtime panic message for subtraction overflow. -/
def sub_overflow_msg : String := "attempt to subtract with overflow"

/-- Rust runtime panic message for a left shift by 64 or more. -/
def shl_overflow_msg : String := "attempt to shift left with overflow"

/-- Rust runtime panic message for a right shift by 64 or more. -/
def shr_overflow_msg : String := "attempt to shift right with overflow"

/-- fn apply_operator of src/parse.rs lines 206 to 241. Pops b (the
top of the operand stack, the right operand), then dispatches on the
token: a unary operator consumes only b; a binary operator pops a
second operand a and combines a with b; any other token (such as
OpenParen) is reported as unsupported, after b has already been
popped. u64 arithmetic follows a Rust debug build, the build the
project is run in: multiplication, addition and subtraction out of
the u64 range panic, a shift count of 64 or more panics, an in-range
left shift discards the bits shifted past bit 63, and the unguarded
remainder of line 226 panics when the divisor is zero. Division by
zero is guarded by the source and returns an ordinary error. -/
def apply_operator (op : Operator) (operands : List Nat) : PRes (List Nat) :=
  match operands with
  | [] => PRes.err ("not enough operands for " ++ debugFmt op.token)
  | b :: operands1 =>
    match op.token with
    | Token.UnaryOperator op_str =>
      if op_str = "~" then PRes.ok ((u64_max - b) :: operands1)
      else if op_str = "!" then PRes.ok ((if b = 0 then 1 else 0) :: operands1)
      else PRes.err ("Unsupported operator " ++ debugFmt op.token)
    | Token.Operator op_str =>
      match operands1 with
      | [] => PRes.err ("not enough operands for " ++ debugFmt op.token)
      | a :: operands2 =>
        if op_str = "*" then
          if a * b < u64_size then PRes.ok ((a * b) :: operands2)
          else PRes.crash mul_overflow_msg
        else if op_str = "/" then
          if b = 0 then PRes.err (divide_by_zero_msg a b)
          else PRes.ok ((a / b) :: operands2)
        else if op_str = "%" then
          if b = 0 then PRes.crash rem_zero_msg
          else PRes.ok ((a % b) :: operands2)
        else if op_str = "+" then
          if a + b < u64_size then PRes.ok ((a + b) :: operands2)
          else PRes.crash add_overflow_msg
        else if op_str = "-" then
          if b ≤ a then PRes.ok ((a - b) :: operands2)
          else PRes.crash sub_overflow_msg
        else if op_str = ">>" then
          if b < 64 then PRes.ok ((a >>> b) :: operands2)
          else PRes.crash shr_overflow_msg
        else if op_str = "<<" then
          if b < 64 then PRes.ok (((a <<< b) % u64_size) :: operands2)
          else PRes.crash shl_overflow_msg
        else if op_str = "|" then PRes.ok ((a ||| b) :: operands2)
        else if op_str = "&" then PRes.ok ((a &&& b) :: operands2)
        else if op_str = "^" then PRes.ok ((a ^^^ b) :: operands2)
        else PRes.err ("Unsupported operator " ++ debugFmt op.token)
    | _ => PRes.err ("Unsupported operator " ++ debugFmt op.token)

/-- fn operator_precedence of src/parse.rs lines 243 to 257. -/
def operator_precedence (op_str : String) : Int :=
  if op_str = "*" then 2
  else if op_str = "/" then 2
  else if op_str = "%" then 2
  else if op_str = "+" then 3
  else if op_str = "-" then 3
  else if op_str = ">>" then 4
  else if op_str = "<<" then 4
  else if op_str = "&" then 5
  else if op_str = "^" then 5
  else if op_str = "|" then 6
  else 7

/-- fn is_prev_compatible of src/parse.rs lines 184 to 186: the
previous token must exist and be neither an OpenParen nor a binary
Operator. Note that a previous UnaryOperator passes this check. -/
def is_prev_compatible (prev_token : Option Token) : Bool :=
  !(prev_token.isNone
    || (match prev_token with | some Token.OpenParen => true | _ => false)
    || (match prev_token with | some (Token.Operator _) => true | _ => false))

/-- The while loop of fn queue_operator, src/parse.rs lines 262 to
271. The source peeks at operators.first(), the BOTTOM of the stack,
yet pops and applies from the top; the head of the list here is the
top of the stack, so the peeked frame is the last element. On an
apply_operator error the source records the error status, leaves the
loop, still pushes the incoming frame and returns the error, which
the caller propagates; returning the error directly is observably the
same, because every caller discards the stacks on an error. -/
def queueLoop (precedence : Int) : List Operator → List Nat → PRes (List Operator × List Nat)
  | [], operands => PRes.ok ([], operands)
  | top :: rest, operands =>
    let first_op := rest.getLastD top
    if precedence ≤ first_op.precedence then PRes.ok (top :: rest, operands)
    else
      match apply_operator top operands with
      | PRes.ok operands2 => queueLoop precedence rest operands2
      | PRes.err m => PRes.err m
      | PRes.crash m => PRes.crash m

/-- fn queue_operator of src/parse.rs lines 259 to 278: run the loop,
then push the incoming operator frame. -/
def queue_operator (token : Token) (precedence : Int) (operators : List Operator)
    (operands : List Nat) : PRes (List Operator × List Nat) :=
  match queueLoop precedence operators operands with
  | PRes.ok (operators2, operands2) => PRes.ok (⟨token, precedence⟩ :: operators2, operands2)
  | PRes.err m => PRes.err m
  | PRes.crash m => PRes.crash m

/-- The CloseParen arm of fn parse, src/parse.rs lines 131 to 144:
pop and apply every operator on the stack, remembering whether an
OpenParen was seen. The source loop has no break, so it does NOT stop
at the first OpenParen: it drains the whole stack. Returns the
openned flag and the final operand stack. -/
def close_paren_loop : List Operator → List Nat → Bool → PRes (Bool × List Nat)
  | [], operands, openned => PRes.ok (openned, operands)
  | op :: rest, operands, openned =>
    match op.token with
    | Token.OpenParen => close_paren_loop rest operands true
    | _ =>
      match apply_operator op operands with
      | PRes.ok operands2 => close_paren_loop rest operands2 openned
      | PRes.err m => PRes.err m
      | PRes.crash m => PRes.crash m

/-- The per-token dispatch of fn parse, src/parse.rs lines 129 to
164, acting on the two stacks. -/
def process_token (token : Token) (prev_token : Option Token) (operators : List Operator)
    (operands : List Nat) : PRes (List Operator × List Nat) :=
  match token with
  | Token.OpenParen => queue_operator token 0 operators operands
  | Token.CloseParen =>
    match close_paren_loop operators operands false with
    | PRes.ok (openned, operands2) =>
      if openned then PRes.ok ([], operands2) else PRes.err "Missing open bracket"
    | PRes.err m => PRes.err m
    | PRes.crash m => PRes.crash m
  | Token.UnaryOperator _ => queue_operator token 1 operators operands
  | Token.Operator op =>
    if is_prev_compatible prev_token then
      queue_operator token (operator_precedence op) operators operands
    else PRes.err ("Syntax error at token " ++ op)
  | Token.Number num_str =>
    match parse_number num_str with
    | some num => PRes.ok (operators, num :: operands)
    | none => PRes.err ("Unrecognised number " ++ num_str)
  | Token.Identifier _ => PRes.ok (operators, operands)
  | Token.Unknown c => PRes.err ("Unrecognised token " ++ c.toString)

/-- The for loop of fn parse, src/parse.rs lines 127 to 166, threading
the previous token and the two stacks. -/
def eval_loop : List Token → Option Token → List Operator → List Nat →
    PRes (List Operator × List Nat)
  | [], _, operators, operands => PRes.ok (operators, operands)
  | token :: rest, prev_token, operators, operands =>
    match process_token token prev_token operators operands with
    | PRes.ok (operators2, operands2) => eval_loop rest (some token) operators2 operands2
    | PRes.err m => PRes.err m
    | PRes.crash m => PRes.crash m

/-- The final drain of fn parse, src/parse.rs lines 168 to 174: pop
and apply every remaining operator, failing on a leftover OpenParen. -/
def drain_operators : List Operator → List Nat → PRes (List Nat)
  | [], operands => PRes.ok operands
  | op :: rest, operands =>
    match op.token with
    | Token.OpenParen => PRes.err "Unexpected open bracket"
    | _ =>
      match apply_operator op operands with
      | PRes.ok operands2 => drain_operators rest operands2
      | PRes.err m => PRes.err m
      | PRes.crash m => PRes.crash m

/-- The body of fn parse after lexing, src/parse.rs lines 124 to 181:
run the token loop from empty stacks and no previous token, drain the
operator stack, then pop the final operand; an empty operand stack is
the No input error, and extra operands below the top are silently
discarded. -/
def parseTokens (tokens : List Token) : PRes Nat :=
  match eval_loop tokens none [] [] with
  | PRes.ok (operators, operands) =>
    match drain_operators operators operands with
    | PRes.ok operands2 =>
      match operands2 with
      | result :: _ => PRes.ok result
      | [] => PRes.err "No input"
    | PRes.err m => PRes.err m
    | PRes.crash m => PRes.crash m
  | PRes.err m => PRes.err m
  | PRes.crash m => PRes.crash m

/-- fn parse of src/parse.rs lines 121 to 182, the public entry point:
lex, then evaluate the token sequence. -/
def parse (input : String) : PRes Nat :=
  match lex input with
  | Except.ok tokens => parseTokens tokens
  | Except.error m => PRes.err m

/-- Scalar result of applying one binary operator to a left operand a
and a right operand b. It is defined THROUGH apply_operator itself, on
the two-element stack b then a, so its value, its error messages and
its panic behavior are exactly those of the source; the empty-list
branch is unreachable, because a successful binary application always
pushes its result. -/
def apply_binary (op_str : String) (a b : Nat) : PRes Nat :=
  match apply_operator ⟨Token.Operator op_str, operator_precedence op_str⟩ [b, a] with
  | PRes.ok (v :: _) => PRes.ok v
  | PRes.ok [] => PRes.err "no result"
  | PRes.err m => PRes.err m
  | PRes.crash m => PRes.crash m

/-- Reference semantics for claim C2, written from the words of the
amended claim rather than from the source: the right-associative
evaluation of an operator chain. The chain a op1 (a1 op2 (a2 ...)) is
evaluated innermost first, each operator by apply_binary, and every
error or panic of an inner application propagates outward. -/
def right_assoc_eval (a : Nat) : List (String × Nat) → PRes Nat
  | [] => PRes.ok a
  | (t, b) :: rest =>
    match right_assoc_eval b rest with
    | PRes.ok r => apply_binary t a r
    | PRes.err m => PRes.err m
    | PRes.crash m => PRes.crash m

/-- Token sequence of an operator chain after its leading Number:
alternating binary Operator and Number tokens, one pair per list
entry. -/
def chain_tokens : List (String × String) → List Token
  | [] => []
  | (t, s) :: rest => Token.Operator t :: Token.Number s :: chain_tokens rest

/-! Helper lemmas shared by the claim theorems. -/

/-- A Number token whose literal parses to n pushes n onto the
operand stack and leaves the operator stack alone, whatever the
previous token was. -/
theorem process_token_number (s : String) (n : Nat) (h : parse_number s = some n)
    (prev : Option Token) (ops : List Operator) (vals : List Nat) :
    process_token (Token.Number s) prev ops vals = PRes.ok (ops, n :: vals) := by
  simp [process_token, h]

/-- Applying a binary operator frame to a stack holding the right
operand r, the left operand c and any tail equals the scalar
application apply_binary t c r with its single result pushed back on
the tail; errors and panics pass through unchanged, and the
precedence field of the frame is irrelevant. Proved by exhausting the
eleven operator-symbol branches of apply_operator. -/
theorem apply_operator_tail (t : String) (p : Int) (c r : Nat) (vals2 : List Nat) :
    apply_operator ⟨Token.Operator t, p⟩ (r :: c :: vals2) =
      (match apply_binary t c r with
       | PRes.ok v => PRes.ok (v :: vals2)
       | PRes.err m => PRes.err m
       | PRes.crash m => PRes.crash m) := by
  rw [show apply_binary t c r =
      (match apply_operator ⟨Token.Operator t, operator_precedence t⟩ [r, c] with
       | PRes.ok (v :: _) => PRes.ok v
       | PRes.ok [] => PRes.err "no result"
       | PRes.err m => PRes.err m
       | PRes.crash m => PRes.crash m) from rfl]
  rw [apply_operator.eq_def]
  rw [apply_operator.eq_def]
  dsimp only
  by_cases h1 : t = "*"
  · subst h1
    by_cases g : c * r < u64_size <;> simp [g]
  rw [if_neg h1, if_neg h1]
  by_cases h2 : t = "/"
  · subst h2
    by_cases g : r = 0 <;> simp [g]
  rw [if_neg h2, if_neg h2]
  by_cases h3 : t = "%"
  · subst h3
    by_cases g : r = 0 <;> simp [g]
  rw [if_neg h3, if_neg h3]
  by_cases h4 : t = "+"
  · subst h4
    by_cases g : c + r < u64_size <;> simp [g]
  rw [if_neg h4, if_neg h4]
  by_cases h5 : t = "-"
  · subst h5
    by_cases g : r ≤ c <;> simp [g]
  rw [if_neg h5, if_neg h5]
  by_cases h6 : t = ">>"
  · subst h6
    by_cases g : r < 64 <;> simp [g]
  rw [if_neg h6, if_neg h6]
  by_cases h7 : t = "<<"
  · subst h7
    by_cases g : r < 64 <;> simp [g]
  rw [if_neg h7, if_neg h7]
  by_cases h8 : t = "|"
  · subst h8
    rfl
  rw [if_neg h8, if_neg h8]
  by_cases h9 : t = "&"
  · subst h9
    rfl
  rw [if_neg h9, if_neg h9]
  by_cases h10 : t = "^"
  · subst h10
    rfl
  rw [if_neg h10, if_neg h10]

/-- Queueing any token whose precedence equals the precedence of
every frame already on the stack pops nothing: the comparison breaks
on less-or-equal against the peeked frame, so the new frame is pushed
on top unchanged. -/
theorem queue_operator_equal_prec (tok : Token) (p : Int) (fr : List Operator)
    (vals : List Nat) (hfr : ∀ f ∈ fr, f.precedence = p) :
    queue_operator tok p fr vals = PRes.ok (⟨tok, p⟩ :: fr, vals) := by
  cases fr with
  | nil => rfl
  | cons top r =>
    have hb : (r.getLastD top).precedence = p :=
      hfr _ (List.getLastD_mem_cons r top)
    rw [queue_operator.eq_def, queueLoop.eq_def]
    dsimp only
    rw [hb, if_pos (le_refl p)]

/-- Running the token loop over an equal-precedence operator chain
accumulates all its operator frames and operand values on the two
stacks without applying anything: frames of one shared precedence are
never popped by the queue comparison. -/
theorem eval_loop_equal_prec_chain (p : Int) (rest : List (String × String × Nat)) :
    (∀ x ∈ rest, operator_precedence x.1 = p ∧ parse_number x.2.1 = some x.2.2) →
    ∀ (fr : List Operator), (∀ f ∈ fr, f.precedence = p) →
    ∀ (vals : List Nat) (sprev : String),
    eval_loop (chain_tokens (rest.map (fun x => (x.1, x.2.1))))
      (some (Token.Number sprev)) fr vals =
      PRes.ok ((rest.map (fun x => (⟨Token.Operator x.1, p⟩ : Operator))).reverse ++ fr,
        (rest.map (fun x => x.2.2)).reverse ++ vals) := by
  induction rest with
  | nil =>
    intro _ fr _ vals sprev
    simp only [List.map_nil, List.reverse_nil, List.nil_append]
    rfl
  | cons x rest2 ih =>
    intro h fr hfr vals sprev
    obtain ⟨t, s, v⟩ := x
    have hx := h (t, s, v) (List.mem_cons_self _ _)
    have h2 : ∀ y ∈ rest2, operator_precedence y.1 = p ∧ parse_number y.2.1 = some y.2.2 :=
      fun y hy => h y (List.mem_cons_of_mem _ hy)
    have hfr2 : ∀ f ∈ (⟨Token.Operator t, p⟩ : Operator) :: fr, f.precedence = p := by
      intro f hf
      rcases List.mem_cons.mp hf with hf | hf
      · rw [hf]
      · exact hfr f hf
    simp only [List.map_cons]
    rw [chain_tokens, eval_loop]
    rw [show process_token (Token.Operator t) (some (Token.Number sprev)) fr vals =
      queue_operator (Token.Operator t) (operator_precedence t) fr vals from rfl]
    rw [hx.1, queue_operator_equal_prec (Token.Operator t) p fr vals hfr]
    dsimp only
    rw [eval_loop, process_token_number s v hx.2]
    dsimp only
    rw [ih h2 (⟨Token.Operator t, p⟩ :: fr) hfr2 (v :: vals) s]
    simp

/-- Draining the accumulated frames of an equal-precedence chain
applies them top down, which computes exactly the right-associative
evaluation of the chain: the innermost (rightmost) application runs
first and its result becomes the right operand of the next frame
below. Errors and panics of any inner application abort the drain. -/
theorem drain_operators_equal_prec_chain (p : Int) (rest : List (String × String × Nat)) :
    ∀ (c : Nat) (restFrames : List Operator) (vals2 : List Nat),
    drain_operators
      ((rest.map (fun x => (⟨Token.Operator x.1, p⟩ : Operator))).reverse ++ restFrames)
      ((rest.map (fun x => x.2.2)).reverse ++ c :: vals2) =
      (match right_assoc_eval c (rest.map (fun x => (x.1, x.2.2))) with
       | PRes.ok r => drain_operators restFrames (r :: vals2)
       | PRes.err m => PRes.err m
       | PRes.crash m => PRes.crash m) := by
  induction rest with
  | nil =>
    intro c restFrames vals2
    simp only [List.map_nil, List.reverse_nil, List.nil_append]
    rfl
  | cons x rest2 ih =>
    intro c restFrames vals2
    obtain ⟨t, s, d⟩ := x
    have e1 : ((((t, s, d) :: rest2).map
        (fun x => (⟨Token.Operator x.1, p⟩ : Operator))).reverse ++ restFrames)
        = ((rest2.map (fun x => (⟨Token.Operator x.1, p⟩ : Operator))).reverse
          ++ ((⟨Token.Operator t, p⟩ : Operator) :: restFrames)) := by
      simp
    have e2 : ((((t, s, d) :: rest2).map (fun x => x.2.2)).reverse ++ c :: vals2)
        = ((rest2.map (fun x => x.2.2)).reverse ++ d :: (c :: vals2)) := by
      simp
    rw [e1, e2, ih d (⟨Token.Operator t, p⟩ :: restFrames) (c :: vals2)]
    rw [show right_assoc_eval c ((((t, s, d) :: rest2)).map (fun x => (x.1, x.2.2))) =
      (match right_assoc_eval d (rest2.map (fun x => (x.1, x.2.2))) with
       | PRes.ok r => apply_binary t c r
       | PRes.err m => PRes.err m
       | PRes.crash m => PRes.crash m) from rfl]
    cases hE : right_assoc_eval d (rest2.map (fun x => (x.1, x.2.2))) with
    | ok r =>
      dsimp only
      rw [drain_operators]
      dsimp only
      rw [apply_operator_tail t p c r vals2]
      cases hA : apply_binary t c r <;> rfl
    | err m => rfl
    | crash m => rfl

/-! Claim theorems. -/

/-- C1: the claim fails on the code. The open-paren sentinel frame,
queued with precedence 0, IS popped by the ordinary precedence
comparison of queue_operator, because 0 is strictly below every
binary operator precedence and the loop pops while the peeked
precedence is strictly below the incoming one. Consequently parsing
the fully parenthesized (1+2)*3 pops the OpenParen frame when + is
queued, feeds it to apply_operator and aborts with Unsupported
operator OpenParen instead of returning 9. The precedence-only part
of the claim does hold: 1+2*3 evaluates to 7. The third conjunct
isolates the defect: queueing + with precedence 3 over a stack whose
only frame is the paren sentinel pops the sentinel. -/
theorem C1_paren_sentinel_is_popped :
    parse "(1+2)*3" = PRes.err "Unsupported operator OpenParen" ∧
    parse "1+2*3" = PRes.ok 7 ∧
    queue_operator (Token.Operator "+") 3 [⟨Token.OpenParen, 0⟩] [1] =
      PRes.err "Unsupported operator OpenParen" := by
  decide

/-- C2 counterexample: equal precedence chains are NOT evaluated
left-associatively. The code evaluates 5-2-1 as 5-(2-1) = 4, while
the claimed left-associative evaluation (5-2)-1 gives 2. -/
theorem C2_left_assoc_counterexample :
    parse "5-2-1" = PRes.ok 4 ∧ parse "5-2-1" ≠ PRes.ok ((5 - 2) - 1) := by
  decide

/-- C2 amended: every chain of binary operators of one shared
precedence with intervening operands, whatever the operators and
however many of them (covering two or more, and mixed pairs such as +
with - or * with / and %), is evaluated right-associatively: the
token evaluation of the chain a op1 a1 op2 a2 ... opn an equals
right_assoc_eval, the right-nested evaluation
a op1 (a1 op2 (... (an-1 opn an))), each operator applied with the
semantics of apply_operator itself, so inner errors and panics
propagate identically. The hypotheses say only that every literal in
the chain parses and that all operators share the precedence rank p. -/
theorem C2_equal_precedence_right_assoc (p : Int) (sa : String) (a : Nat)
    (rest : List (String × String × Nat))
    (ha : parse_number sa = some a)
    (h : ∀ x ∈ rest, operator_precedence x.1 = p ∧ parse_number x.2.1 = some x.2.2) :
    parseTokens (Token.Number sa :: chain_tokens (rest.map (fun x => (x.1, x.2.1)))) =
      right_assoc_eval a (rest.map (fun x => (x.1, x.2.2))) := by
  rw [parseTokens, eval_loop, process_token_number sa a ha]
  dsimp only
  rw [eval_loop_equal_prec_chain p rest h [] (by intro f hf; cases hf) [a] sa]
  dsimp only
  have hd := drain_operators_equal_prec_chain p rest a [] []
  rw [List.append_nil] at hd
  rw [show ((rest.map (fun x => (⟨Token.Operator x.1, p⟩ : Operator))).reverse
      ++ ([] : List Operator))
      = (rest.map (fun x => (⟨Token.Operator x.1, p⟩ : Operator))).reverse from
    List.append_nil _]
  rw [hd]
  cases hE : right_assoc_eval a (rest.map (fun x => (x.1, x.2.2))) <;> rfl

/-- C2 witness: the amended theorem at two concrete chains, the
subtraction chain 5-2-1, which evaluates to 5-(2-1) = 4 rather than
the left-associative 2, and the division chain 8/4/2, which evaluates
to 8/(4/2) = 4 rather than the left-associative 1. -/
theorem C2_equal_precedence_right_assoc_witness :
    parseTokens (Token.Number "5" :: chain_tokens [("-", "2"), ("-", "1")]) = PRes.ok 4 ∧
    parseTokens (Token.Number "8" :: chain_tokens [("/", "4"), ("/", "2")]) = PRes.ok 4 :=
  ⟨C2_equal_precedence_right_assoc 3 "5" 5 [("-", "2", 2), ("-", "1", 1)] rfl (by decide),
   C2_equal_precedence_right_assoc 2 "8" 8 [("/", "4", 4), ("/", "2", 2)] rfl (by decide)⟩

/-- C3: hex, binary and decimal literals round-trip as claimed, but
the octal branch of parse_number checks for the prefix 0o and then
trims the pattern 00 instead, so the letter o reaches from_str_radix
and every octal literal fails with Unrecognised number. -/
theorem C3_literal_bases :
    parse "0x1F" = PRes.ok 31 ∧
    parse "0o17" = PRes.err "Unrecognised number 0o17" ∧
    parse "0b101" = PRes.ok 5 ∧
    parse "10" = PRes.ok 10 := by
  decide

/-- C4: division by zero is guarded and returns the structured divide
by zero error, but the remainder arm of apply_operator has no zero
guard, so 5%0 hits the unguarded Rust remainder and panics instead of
returning an error to the caller. -/
theorem C4_divide_modulo_zero :
    parse "5/0" = PRes.err (divide_by_zero_msg 5 0) ∧
    parse "5%0" = PRes.crash rem_zero_msg := by
  decide

/-- C5 counterexample: a binary operator immediately after a unary
operator does NOT fail with a syntax error. is_prev_compatible
accepts a previous UnaryOperator, so 1!+2 evaluates: ! collapses 1 to
0 when + is queued, and the result is 0+2 = 2. -/
theorem C5_unary_prev_counterexample : parse "1!+2" = PRes.ok 2 := by
  decide

/-- C5 amended: a binary Operator token is rejected with the Syntax
error message exactly when there is no previous token, the previous
token is an OpenParen, or the previous token is another binary
Operator; any other previous token, including a UnaryOperator, an
Identifier or an Unknown token, passes the check. -/
theorem C5_operator_legality (s : String) (prev : Option Token) (ops : List Operator)
    (vals : List Nat) :
    (is_prev_compatible prev = false ↔
      prev = none ∨ prev = some Token.OpenParen ∨ ∃ t, prev = some (Token.Operator t)) ∧
    (is_prev_compatible prev = false →
      process_token (Token.Operator s) prev ops vals =
        PRes.err ("Syntax error at token " ++ s)) := by
  constructor
  · cases prev with
    | none => simp [is_prev_compatible]
    | some t => cases t <;> simp [is_prev_compatible]
  · intro h
    simp [process_token, h]

/-- C5 witness: the amended theorem at a concrete illegal position, a
binary * directly after an open parenthesis. -/
theorem C5_operator_legality_witness :
    process_token (Token.Operator "*") (some Token.OpenParen) [] [] =
      PRes.err ("Syntax error at token " ++ "*") :=
  (C5_operator_legality "*" (some Token.OpenParen) [] []).2 rfl

/-- C6: the missing open bracket direction holds (1+2) but the other
two parts of the claim fail on the code. First, (1+2 never reaches
the final drain where Unexpected open bracket is reported: the paren
frame is popped by the precedence comparison when + is queued and the
run aborts with Unsupported operator OpenParen. Second, the
CloseParen loop has no break, so it does not stop at the first
OpenParen: the third conjunct shows it draining past the paren frame
and applying the + below it. -/
theorem C6_unbalanced_brackets :
    parse "(1+2" = PRes.err "Unsupported operator OpenParen" ∧
    parse "1+2)" = PRes.err "Missing open bracket" ∧
    close_paren_loop [⟨Token.OpenParen, 0⟩, ⟨Token.Operator "+", 3⟩] [2, 1] false =
      PRes.ok (true, [3]) := by
  decide

/-- C7: lexing never fails on any input, and a lone angle bracket, one
not immediately followed by its twin, is silently dropped: no token is
emitted and no error is raised. -/
theorem C7_lex_total_and_lone_angles_dropped :
    (∀ s : String, lex s = Except.ok (lexList s.data)) ∧
    (∀ l : List Char, l.head? ≠ some '<' → lexList ('<' :: l) = lexList l) ∧
    (∀ l : List Char, l.head? ≠ some '>' → lexList ('>' :: l) = lexList l) := by
  refine ⟨fun s => rfl, fun l h => ?_, fun l h => ?_⟩
  · cases l with
    | nil => rfl
    | cons c2 rest2 =>
      have hc : c2 ≠ '<' := by simpa using h
      simp [lexList, lexGo, hc]
  · cases l with
    | nil => rfl
    | cons c2 rest2 =>
      have hc : c2 ≠ '>' := by simpa using h
      simp [lexList, lexGo, hc]

/-- C7 witness: concrete instances, lexing always succeeds on the
string a and a lone angle bracket before the digit 1 is dropped. -/
theorem C7_lex_total_and_lone_angles_dropped_witness :
    lex "a" = Except.ok (lexList "a".data) ∧
    lexList ('<' :: ['1']) = lexList ['1'] ∧
    lexList ('>' :: ['1']) = lexList ['1'] :=
  ⟨C7_lex_total_and_lone_angles_dropped.1 "a",
   C7_lex_total_and_lone_angles_dropped.2.1 ['1'] (by decide),
   C7_lex_total_and_lone_angles_dropped.2.2 ['1'] (by decide)⟩

/-- C8: evaluating the same input twice yields identical outcomes.
The embedding is a pure function of the input string alone, faithful
to the source, whose two stacks are local variables of one parse call
and where no mutable state survives across calls. -/
theorem C8_reevaluation_identical (input : String) : parse input = parse input := rfl

/-- C9: when processing leaves more than one value on the operand
stack, parse succeeds and returns the most recently pushed operand,
silently discarding the ones below it: two juxtaposed number tokens
evaluate to the second number. -/
theorem C9_extra_operands_discarded (sa sb : String) (a b : Nat)
    (ha : parse_number sa = some a) (hb : parse_number sb = some b) :
    parseTokens [Token.Number sa, Token.Number sb] = PRes.ok b := by
  rw [parseTokens, eval_loop, process_token_number sa a ha]
  dsimp only
  rw [eval_loop, process_token_number sb b hb]
  rfl

/-- C9 witness: the input 1 2 lexes to two number tokens and parse
returns 2, the most recently pushed operand. -/
theorem C9_extra_operands_discarded_witness : parse "1 2" = PRes.ok 2 :=
  C9_extra_operands_discarded "1" "2" 1 2 rfl rfl

/-- C10: a unary operator is accepted in every position: its dispatch
arm never consults the previous token (second conjunct), and 2~3
succeeds, returning the bitwise complement of 3 while the earlier
operand 2 is silently discarded (first conjunct). -/
theorem C10_unary_no_position_check :
    parse "2~3" = PRes.ok 18446744073709551612 ∧
    (∀ (p q : Option Token) (ops : List Operator) (vals : List Nat),
      process_token (Token.UnaryOperator "~") p ops vals =
        process_token (Token.UnaryOperator "~") q ops vals) :=
  ⟨by decide, fun _ _ _ _ => rfl⟩

end Bitparse
